import Mathlib

/-!
# Verification of the iCapture coordination layer

Shallow embedding of the system's core modules:

* `backend/modules/violation_logic.py` — rule gate, consecutive-frame
  verification, duplicate suppression, violation manager;
* `backend/modules/db_pool.py` — retry-with-backoff wrapper;
* `backend/modules/frame_sync.py` — frame buffers and synchronizer;
* `backend/app.py` — the bounded-queue push policies of the capture and
  inference stages.

Conventions: wall-clock times and confidences are rationals (`ℚ`); the
impure `time.time()` reads become explicit `now : ℚ` parameters; Python
dicts keyed by strings become total functions with a default value
(`[]` / `none`), which is observationally equivalent to presence/absence
in the dict for this code; external collaborators (database repository,
persistent duplicate check) become oracle functions supplied as data.
-/

namespace ICapture

/-! ## violation_logic.py — domain model -/

/-- `Detection` dataclass (violation_logic.py). The bounding box is kept as
an opaque quadruple; it is never inspected by the decision logic. -/
structure Detection where
  violation_type : String
  confidence : ℚ
  bbox : ℚ × ℚ × ℚ × ℚ
  timestamp : ℚ
  plate_number : Option String := none
  ocr_confidence : ℚ := 0
deriving Repr

/-- `Detection.has_plate` property: `plate_number is not None`. -/
def Detection.has_plate (d : Detection) : Bool :=
  d.plate_number.isSome

/-- Closed set of rule categories present in the source
(`NoHelmetRule`, `NutshellHelmetRule`, `DoubleRiderRule`). -/
inductive RuleKind where
  | noHelmet
  | nutshellHelmet
  | doubleRider
deriving DecidableEq, Repr

/-- `get_violation_type` of each rule class. -/
def RuleKind.violationType : RuleKind → String
  | .noHelmet => "no_helmet"
  | .nutshellHelmet => "nutshell_helmet"
  | .doubleRider => "double_rider"

/-- A rule instance: category together with its confidence threshold
(the `min_confidence` constructor argument of each rule class). -/
structure ViolationRule where
  kind : RuleKind
  min_confidence : ℚ
deriving Repr

/-- Each concrete `evaluate` in the source tests
`violation_type == category and confidence >= min_confidence`. -/
def ViolationRule.evaluate (r : ViolationRule) (d : Detection) : Bool :=
  d.violation_type == r.kind.violationType && decide (r.min_confidence ≤ d.confidence)

/-- `get_violation_type`. -/
def ViolationRule.get_violation_type (r : ViolationRule) : String :=
  r.kind.violationType

/-- `NoHelmetRule(min_confidence=0.6)`. -/
def NoHelmetRule (min_confidence : ℚ := 6/10) : ViolationRule :=
  ⟨.noHelmet, min_confidence⟩

/-- `NutshellHelmetRule(min_confidence=0.6)`. -/
def NutshellHelmetRule (min_confidence : ℚ := 6/10) : ViolationRule :=
  ⟨.nutshellHelmet, min_confidence⟩

/-- `DoubleRiderRule(min_confidence=0.7)`. -/
def DoubleRiderRule (min_confidence : ℚ := 7/10) : ViolationRule :=
  ⟨.doubleRider, min_confidence⟩

/-- The active rule list built by `get_violation_manager`. -/
def default_rules : List ViolationRule :=
  [NoHelmetRule (6/10), NutshellHelmetRule (6/10)]

/-! ## ConsecutiveFrameVerifier -/

/-- Append on a `deque(maxlen=m)`: when the deque is full the leftmost
(oldest) element is discarded as the new one is appended on the right. -/
def dequeAppend (m : Nat) (l : List ℚ) (x : ℚ) : List ℚ :=
  if l.length < m then l ++ [x] else (l.drop (l.length + 1 - m)) ++ [x]

/-- `ConsecutiveFrameVerifier`: `detection_buffer` maps a tracking key to
its recorded timestamps, oldest first.  A key absent from the Python dict
is modelled as mapping to `[]` (the first `add_detection` for a key
creates an empty deque, so the two are observationally identical). -/
structure ConsecutiveFrameVerifier where
  required_frames : Nat
  time_window : ℚ
  detection_buffer : String → List ℚ

/-- `ConsecutiveFrameVerifier.add_detection`: append `now` to the key's
bounded history; report verified when the history holds at least
`required_frames` entries and `timestamps[-1] - timestamps[0] < time_window`. -/
def ConsecutiveFrameVerifier.add_detection (v : ConsecutiveFrameVerifier)
    (now : ℚ) (tracking_key : String) : Bool × ConsecutiveFrameVerifier :=
  let buf := dequeAppend v.required_frames (v.detection_buffer tracking_key) now
  let verified : Bool :=
    decide (v.required_frames ≤ buf.length) && decide (buf.getLastD 0 - buf.headD 0 < v.time_window)
  (verified,
   { v with detection_buffer := fun k => if k = tracking_key then buf else v.detection_buffer k })

/-- `ConsecutiveFrameVerifier.reset`: `del self.detection_buffer[key]`;
in the total-function model deletion restores the default `[]`. -/
def ConsecutiveFrameVerifier.reset (v : ConsecutiveFrameVerifier)
    (tracking_key : String) : ConsecutiveFrameVerifier :=
  { v with detection_buffer := fun k => if k = tracking_key then [] else v.detection_buffer k }

/-! ## DuplicationChecker -/

/-- `DuplicationChecker`: in-memory cache `recent_violations` plus an
optional persistent-store oracle (`db_repository.check_recent_violation`,
an external collaborator modelled as a pure predicate). -/
structure DuplicationChecker where
  time_window : ℚ
  db_repository : Option (String → ℚ → Bool)
  recent_violations : String → Option ℚ

/-- `DuplicationChecker.is_duplicate`.  Python's `if not plate_number`
treats both `None` and the empty string as "no identifier".  A database
hit refreshes the in-memory cache entry before reporting a duplicate. -/
def DuplicationChecker.is_duplicate (d : DuplicationChecker)
    (now : ℚ) (plate_number : Option String) : Bool × DuplicationChecker :=
  match plate_number with
  | none => (false, d)
  | some p =>
    if p = "" then (false, d)
    else
      let cacheHit : Bool :=
        match d.recent_violations p with
        | some last_time => decide (now - last_time < d.time_window)
        | none => false
      if cacheHit then (true, d)
      else
        match d.db_repository with
        | some check =>
          if check p d.time_window then
            (true, { d with recent_violations :=
                       fun q => if q = p then some now else d.recent_violations q })
          else (false, d)
        | none => (false, d)

/-- `DuplicationChecker.mark_logged`: record the current time for a truthy
identifier (Python skips `None` and `""`). -/
def DuplicationChecker.mark_logged (d : DuplicationChecker)
    (now : ℚ) (plate_number : Option String) : DuplicationChecker :=
  match plate_number with
  | none => d
  | some p =>
    if p = "" then d
    else { d with recent_violations :=
             fun q => if q = p then some now else d.recent_violations q }

/-! ## ViolationManager -/

/-- The manager's statistics counters. -/
structure Stats where
  total_detections : Nat := 0
  violations_logged : Nat := 0
  duplicates_prevented : Nat := 0
  verification_pending : Nat := 0
deriving Repr, DecidableEq

/-- The subset of the `violation_data` dict that `log_violation` itself
reads (the repository receives the whole record opaquely). -/
structure ViolationData where
  violation_type : String
  plate_number : Option String
deriving Repr

/-- The decision dict returned by `process_detection`. -/
structure Decision where
  should_log : Bool
  reason : String
  violation_code : Option String
  violation_type : Option String := none
deriving Repr, DecidableEq

/-- `ViolationManager`.  `repository_save` is the external
`ViolationRepository.save` collaborator, modelled as an oracle from the
record to the id the store returns (`none` = save failed). -/
structure ViolationManager where
  rules : List ViolationRule
  verifier : ConsecutiveFrameVerifier
  deduplicator : DuplicationChecker
  repository_save : ViolationData → Option Nat
  stats : Stats := {}

/-- `ViolationManager._evaluate_rules`: first matching rule in list order. -/
def ViolationManager.evaluate_rules (m : ViolationManager) (d : Detection) :
    Option ViolationRule :=
  m.rules.find? (fun r => r.evaluate d)

/-- Tracking key:
`detection.plate_number or f"NO_PLATE_{camera_info['camera_id']}"` —
Python's `or` falls through for `None` and for the empty string. -/
def trackingKey (d : Detection) (camera_id : String) : String :=
  match d.plate_number with
  | some p => if p = "" then "NO_PLATE_" ++ camera_id else p
  | none => "NO_PLATE_" ++ camera_id

/-- `ViolationManager.process_detection`.  `now` stands for `time.time()`
and `newCode` for the freshly generated `generate_violation_code()`
(impure: wall clock plus randomness). -/
def ViolationManager.process_detection (m : ViolationManager) (now : ℚ)
    (newCode : String) (detection : Detection) (camera_id : String) :
    Decision × ViolationManager :=
  let m1 := { m with stats := { m.stats with total_detections := m.stats.total_detections + 1 } }
  match m1.evaluate_rules detection with
  | none =>
    ({ should_log := false, reason := "No rule matched", violation_code := none }, m1)
  | some matching_rule =>
    let tracking_key := trackingKey detection camera_id
    let va := m1.verifier.add_detection now tracking_key
    let m2 := { m1 with verifier := va.snd }
    if !va.fst then
      ({ should_log := false, reason := "Verification pending (consecutive frames)",
         violation_code := none },
       { m2 with stats := { m2.stats with
           verification_pending := m2.stats.verification_pending + 1 } })
    else
      if detection.has_plate then
        let dup := m2.deduplicator.is_duplicate now detection.plate_number
        let m3 := { m2 with deduplicator := dup.snd }
        if dup.fst then
          ({ should_log := false,
             reason := "Duplicate within " ++ toString m3.deduplicator.time_window ++ "s",
             violation_code := none },
           { m3 with
               stats := { m3.stats with
                 duplicates_prevented := m3.stats.duplicates_prevented + 1 },
               verifier := m3.verifier.reset tracking_key })
        else
          ({ should_log := true,
             reason := "Violation confirmed: " ++ matching_rule.get_violation_type,
             violation_code := some newCode,
             violation_type := some matching_rule.get_violation_type }, m3)
      else
        ({ should_log := true,
           reason := "Violation confirmed: " ++ matching_rule.get_violation_type,
           violation_code := some newCode,
           violation_type := some matching_rule.get_violation_type }, m2)

/-- `ViolationManager.log_violation`: persist through the repository; on a
truthy id (Python `if violation_id:` — false for `None` and for `0`)
bump the counter and mark the plate as logged. -/
def ViolationManager.log_violation (m : ViolationManager) (now : ℚ)
    (violation_data : ViolationData) : Option Nat × ViolationManager :=
  let violation_id := m.repository_save violation_data
  match violation_id with
  | some vid =>
    if vid ≠ 0 then
      (violation_id,
       { m with
           stats := { m.stats with violations_logged := m.stats.violations_logged + 1 },
           deduplicator := m.deduplicator.mark_logged now violation_data.plate_number })
    else (violation_id, m)
  | none => (violation_id, m)

/-! ## Helper lemmas on the decision engine -/

/-- `List.find?` returns the first element satisfying the predicate:
it satisfies the predicate and everything before it fails it. -/
theorem find_first_spec {α : Type} (p : α → Bool) (l : List α) (a : α)
    (h : l.find? p = some a) :
    p a = true ∧ ∃ pre post, l = pre ++ a :: post ∧ ∀ x ∈ pre, p x = false := by
  induction l with
  | nil => simp [List.find?] at h
  | cons b t ih =>
    by_cases hb : p b = true
    · simp [List.find?, hb] at h
      subst h
      exact ⟨hb, [], t, rfl, by simp⟩
    · have hb' : p b = false := by simpa using hb
      simp [List.find?, hb'] at h
      obtain ⟨hpa, pre, post, ht, hpre⟩ := ih h
      exact ⟨hpa, b :: pre, post, by simp [ht], by simpa [hb'] using hpre⟩

/-- `List.find?` fails exactly when no element satisfies the predicate. -/
theorem find_none_spec {α : Type} (p : α → Bool) (l : List α) :
    l.find? p = none ↔ ∀ x ∈ l, p x = false := by
  simp [List.find?_eq_none]

/-- Appending below capacity. -/
theorem dequeAppend_lt (m : Nat) (l : List ℚ) (x : ℚ) (h : l.length < m) :
    dequeAppend m l x = l ++ [x] := by
  simp [dequeAppend, h]

/-- Appending to a full three-slot deque drops the oldest entry. -/
theorem dequeAppend_full3 (t1 t2 t3 t4 : ℚ) :
    dequeAppend 3 [t1, t2, t3] t4 = [t2, t3, t4] := by
  simp [dequeAppend]

/-- `add_detection` updates only the touched key's buffer, by appending. -/
theorem add_detection_buffer (v : ConsecutiveFrameVerifier) (now : ℚ) (k k' : String) :
    (v.add_detection now k).snd.detection_buffer k' =
      if k' = k then dequeAppend v.required_frames (v.detection_buffer k) now
      else v.detection_buffer k' := by
  simp [ConsecutiveFrameVerifier.add_detection]

/-- `add_detection` leaves `required_frames` and `time_window` unchanged. -/
theorem add_detection_params (v : ConsecutiveFrameVerifier) (now : ℚ) (k : String) :
    (v.add_detection now k).snd.required_frames = v.required_frames ∧
      (v.add_detection now k).snd.time_window = v.time_window := by
  simp [ConsecutiveFrameVerifier.add_detection]

/-- The verification verdict of `add_detection` reads only the verifier's
parameters and the touched key's own buffer. -/
theorem add_detection_fst_congr (v w : ConsecutiveFrameVerifier) (now : ℚ) (k : String)
    (hr : v.required_frames = w.required_frames)
    (ht : v.time_window = w.time_window)
    (hb : v.detection_buffer k = w.detection_buffer k) :
    (v.add_detection now k).fst = (w.add_detection now k).fst := by
  simp [ConsecutiveFrameVerifier.add_detection, hr, ht, hb]

/-! ## C1 — rule gate -/

/-- A reusable plate-less detection that matches `NoHelmetRule`. -/
def testDetection : Detection :=
  { violation_type := "no_helmet", confidence := 95/100, bbox := (0, 0, 0, 0), timestamp := 0 }

/-- A detection whose confidence 0.59 sits below the 0.6 threshold. -/
def lowConfDetection : Detection :=
  { violation_type := "no_helmet", confidence := 59/100, bbox := (0, 0, 0, 0), timestamp := 0 }

/-- A fresh manager with the source's default configuration
(rules from `get_violation_manager`, 3 frames / 5 s verification,
60 s duplicate window, no persistent duplicate oracle). -/
def testManager : ViolationManager :=
  { rules := default_rules,
    verifier := { required_frames := 3, time_window := 5, detection_buffer := fun _ => [] },
    deduplicator := { time_window := 60, db_repository := none, recent_violations := fun _ => none },
    repository_save := fun _ => some 1 }

/-- A manager whose verification history for `NO_PLATE_CAM` already holds
two recent frames, so the next matching detection verifies. -/
def primedManager : ViolationManager :=
  { testManager with
      verifier := { required_frames := 3, time_window := 5,
                    detection_buffer := fun k => if k = "NO_PLATE_CAM" then [0, 1] else [] } }

/-- C1: the rule gate selects the first configured rule whose category
equals the detection's violation type with confidence at or above its
threshold; no match yields `should_log=false` with the no-rule-matched
reason (the code's literal string is "No rule matched"); with the default
rules a no-helmet detection at confidence 0.59 is never logged, while one
at 0.95 whose verification gate passes and which carries no identifier is
logged. -/
theorem C1_rule_gate (m : ViolationManager) (now : ℚ) (code : String)
    (d dlow dhigh : Detection) (cam : String) :
    (∀ r, m.evaluate_rules d = some r →
       r.evaluate d = true ∧
       ∃ pre post, m.rules = pre ++ r :: post ∧ ∀ r' ∈ pre, r'.evaluate d = false) ∧
    ((m.evaluate_rules d = none) ↔ ∀ r ∈ m.rules, r.evaluate d = false) ∧
    (m.evaluate_rules d = none →
       (m.process_detection now code d cam).fst =
         { should_log := false, reason := "No rule matched", violation_code := none }) ∧
    (m.rules = default_rules → dlow.violation_type = "no_helmet" →
       dlow.confidence = 59/100 →
       (m.process_detection now code dlow cam).fst.should_log = false) ∧
    (m.rules = default_rules → dhigh.violation_type = "no_helmet" →
       dhigh.confidence = 95/100 → dhigh.plate_number = none →
       (m.verifier.add_detection now (trackingKey dhigh cam)).fst = true →
       (m.process_detection now code dhigh cam).fst.should_log = true) := by
  refine ⟨?_, ?_, ?_, ?_, ?_⟩
  · intro r hr
    exact find_first_spec _ _ _ hr
  · exact find_none_spec _ _
  · intro hnone
    simp only [ViolationManager.process_detection, ViolationManager.evaluate_rules] at hnone ⊢
    simp [hnone]
  · intro hrules htype hconf
    have hnone : m.evaluate_rules dlow = none := by
      simp [ViolationManager.evaluate_rules, hrules, default_rules, List.find?,
        ViolationRule.evaluate, NoHelmetRule, NutshellHelmetRule, RuleKind.violationType,
        htype, hconf]
      norm_num
    simp only [ViolationManager.process_detection, ViolationManager.evaluate_rules] at hnone ⊢
    simp [hnone]
  · intro hrules htype hconf hplate hver
    have hfind : m.evaluate_rules dhigh = some (NoHelmetRule (6/10)) := by
      simp [ViolationManager.evaluate_rules, hrules, default_rules, List.find?,
        ViolationRule.evaluate, NoHelmetRule, RuleKind.violationType, htype, hconf]
      norm_num
    have hnp : dhigh.has_plate = false := by
      simp [Detection.has_plate, hplate]
    simp only [ViolationManager.process_detection, ViolationManager.evaluate_rules] at hfind ⊢
    simp [hfind, hver, hnp]

/-! ## C2 — consecutive-frame verification -/

/-- Evaluating the rules depends only on the rule list. -/
theorem evaluate_rules_congr (m m' : ViolationManager) (d : Detection)
    (h : m'.rules = m.rules) : m'.evaluate_rules d = m.evaluate_rules d := by
  simp [ViolationManager.evaluate_rules, h]

/-- One `process_detection` step for a rule-matching, plate-less detection:
the decision is decided by the verification gate alone, the verifier
advances by `add_detection`, and the other components are untouched. -/
theorem process_detection_step (m : ViolationManager) (now : ℚ) (code : String)
    (d : Detection) (cam : String) (r : ViolationRule)
    (hr : m.evaluate_rules d = some r) (hp : d.plate_number = none) :
    (m.process_detection now code d cam).fst =
      (if (m.verifier.add_detection now (trackingKey d cam)).fst then
        { should_log := true, reason := "Violation confirmed: " ++ r.get_violation_type,
          violation_code := some code, violation_type := some r.get_violation_type }
       else
        { should_log := false, reason := "Verification pending (consecutive frames)",
          violation_code := none }) ∧
    (m.process_detection now code d cam).snd.verifier =
      (m.verifier.add_detection now (trackingKey d cam)).snd ∧
    (m.process_detection now code d cam).snd.rules = m.rules ∧
    (m.process_detection now code d cam).snd.deduplicator = m.deduplicator := by
  have hnp : d.has_plate = false := by simp [Detection.has_plate, hp]
  simp only [ViolationManager.process_detection, ViolationManager.evaluate_rules] at hr ⊢
  by_cases hv : (m.verifier.add_detection now (trackingKey d cam)).fst
  · simp [hr, hv, hnp]
  · simp only [Bool.not_eq_true] at hv
    simp [hr, hv, hnp]

/-- Three rule-matching plate-less calls for a fresh key: the first two
are pending, the third verifies exactly on a sub-window span, and the
resulting state retains all three timestamps with the other components
untouched. -/
theorem three_call_run (m : ViolationManager) (d : Detection)
    (cam c1 c2 c3 : String) (t1 t2 t3 : ℚ) (r : ViolationRule)
    (hreq : m.verifier.required_frames = 3)
    (hwin : m.verifier.time_window = 5)
    (hbuf : m.verifier.detection_buffer (trackingKey d cam) = [])
    (hrule : m.evaluate_rules d = some r)
    (hplate : d.plate_number = none) :
    (m.process_detection t1 c1 d cam).fst =
      { should_log := false, reason := "Verification pending (consecutive frames)",
        violation_code := none } ∧
    ((m.process_detection t1 c1 d cam).snd.process_detection t2 c2 d cam).fst =
      { should_log := false, reason := "Verification pending (consecutive frames)",
        violation_code := none } ∧
    ((((m.process_detection t1 c1 d cam).snd.process_detection t2 c2 d cam).snd.process_detection
        t3 c3 d cam).fst.should_log = true ↔ t3 - t1 < 5) ∧
    ((((m.process_detection t1 c1 d cam).snd.process_detection t2 c2 d cam).snd.process_detection
        t3 c3 d cam).snd.verifier.detection_buffer (trackingKey d cam) = [t1, t2, t3]) ∧
    ((((m.process_detection t1 c1 d cam).snd.process_detection t2 c2 d cam).snd.process_detection
        t3 c3 d cam).snd.rules = m.rules) ∧
    ((((m.process_detection t1 c1 d cam).snd.process_detection t2 c2 d cam).snd.process_detection
        t3 c3 d cam).snd.verifier.required_frames = 3) ∧
    ((((m.process_detection t1 c1 d cam).snd.process_detection t2 c2 d cam).snd.process_detection
        t3 c3 d cam).snd.verifier.time_window = 5) := by
  set key := trackingKey d cam with hkey
  -- call 1
  obtain ⟨hd1, hv1, hr1, hdd1⟩ := process_detection_step m t1 c1 d cam r hrule hplate
  have hfst1 : (m.verifier.add_detection t1 key).fst = false := by
    simp [ConsecutiveFrameVerifier.add_detection, hbuf, hreq, dequeAppend]
  set m1 := (m.process_detection t1 c1 d cam).snd with hm1
  have hbuf1 : m1.verifier.detection_buffer key = [t1] := by
    rw [hv1, add_detection_buffer]
    simp [hbuf, hreq, dequeAppend]
  have hreq1 : m1.verifier.required_frames = 3 := by
    rw [hv1, (add_detection_params _ _ _).1, hreq]
  have hwin1 : m1.verifier.time_window = 5 := by
    rw [hv1, (add_detection_params _ _ _).2, hwin]
  have hrule1 : m1.evaluate_rules d = some r := by
    rw [evaluate_rules_congr m m1 d hr1, hrule]
  -- call 2
  obtain ⟨hd2, hv2, hr2, hdd2⟩ := process_detection_step m1 t2 c2 d cam r hrule1 hplate
  have hfst2 : (m1.verifier.add_detection t2 key).fst = false := by
    simp [ConsecutiveFrameVerifier.add_detection, hbuf1, hreq1, dequeAppend]
  set m2 := (m1.process_detection t2 c2 d cam).snd with hm2
  have hbuf2 : m2.verifier.detection_buffer key = [t1, t2] := by
    rw [hv2, add_detection_buffer]
    simp [hbuf1, hreq1, dequeAppend]
  have hreq2 : m2.verifier.required_frames = 3 := by
    rw [hv2, (add_detection_params _ _ _).1, hreq1]
  have hwin2 : m2.verifier.time_window = 5 := by
    rw [hv2, (add_detection_params _ _ _).2, hwin1]
  have hrule2 : m2.evaluate_rules d = some r := by
    rw [evaluate_rules_congr m1 m2 d hr2, hrule1]
  -- call 3
  obtain ⟨hd3, hv3, hr3, hdd3⟩ := process_detection_step m2 t3 c3 d cam r hrule2 hplate
  have hfst3 : (m2.verifier.add_detection t3 key).fst = decide (t3 - t1 < 5) := by
    simp [ConsecutiveFrameVerifier.add_detection, hbuf2, hreq2, hwin2, dequeAppend,
      List.getLastD]
  set m3 := (m2.process_detection t3 c3 d cam).snd with hm3
  have hbuf3 : m3.verifier.detection_buffer key = [t1, t2, t3] := by
    rw [hv3, add_detection_buffer]
    simp [hbuf2, hreq2, dequeAppend]
  refine ⟨?_, ?_, ?_, ?_, ?_, ?_, ?_⟩
  · rw [hd1, ← hkey, hfst1]
    simp
  · rw [hd2, ← hkey, hfst2]
    simp
  · rw [hd3, ← hkey, hfst3]
    by_cases hspan : t3 - t1 < 5 <;> simp [hspan]
  · exact hbuf3
  · rw [hr3, hr2, hr1]
  · rw [hv3, (add_detection_params _ _ _).1, hreq2]
  · rw [hv3, (add_detection_params _ _ _).2, hwin2]

/-- C2: with `required_frames = 3` and a 5-second window, the first two
rule-passing calls for a key are verification-pending, and the third call
logs exactly when the span between the oldest and newest recorded
timestamp is strictly below 5 s.  A key's recorded timestamps never leak
into another key: `add_detection` leaves every other key's buffer intact,
and its verdict reads only the addressed key's own buffer. -/
theorem C2_verification_three_frames (m : ViolationManager) (d : Detection)
    (cam c1 c2 c3 : String) (t1 t2 t3 : ℚ) (r : ViolationRule)
    (hreq : m.verifier.required_frames = 3)
    (hwin : m.verifier.time_window = 5)
    (hbuf : m.verifier.detection_buffer (trackingKey d cam) = [])
    (hrule : m.evaluate_rules d = some r)
    (hplate : d.plate_number = none)
    (h12 : t1 ≤ t2) (h23 : t2 ≤ t3) :
    ((m.process_detection t1 c1 d cam).fst =
       { should_log := false, reason := "Verification pending (consecutive frames)",
         violation_code := none } ∧
     ((m.process_detection t1 c1 d cam).snd.process_detection t2 c2 d cam).fst =
       { should_log := false, reason := "Verification pending (consecutive frames)",
         violation_code := none } ∧
     ((((m.process_detection t1 c1 d cam).snd.process_detection t2 c2 d cam).snd.process_detection
         t3 c3 d cam).fst.should_log = true ↔ t3 - t1 < 5)) ∧
    (∀ (v : ConsecutiveFrameVerifier) (now : ℚ) (k k' : String), k' ≠ k →
       (v.add_detection now k).snd.detection_buffer k' = v.detection_buffer k') ∧
    (∀ (v w : ConsecutiveFrameVerifier) (now : ℚ) (k : String),
       v.required_frames = w.required_frames → v.time_window = w.time_window →
       v.detection_buffer k = w.detection_buffer k →
       (v.add_detection now k).fst = (w.add_detection now k).fst) := by
  obtain ⟨h1, h2, h3, _, _, _, _⟩ :=
    three_call_run m d cam c1 c2 c3 t1 t2 t3 r hreq hwin hbuf hrule hplate
  refine ⟨⟨h1, h2, h3⟩, ?_, ?_⟩
  · intro v now k k' hne
    rw [add_detection_buffer]
    simp [hne]
  · intro v w now k h1 h2 h3
    exact add_detection_fst_congr v w now k h1 h2 h3

/-! ## C3 — duplicate suppression window -/

/-- C3: with a 60 s duplicate window and the identifier `p` marked logged
at `t0`, a rule-matching, verification-passing detection for `p` at time
`t` with `t - t0 < 60` is refused as a duplicate and the key's
verification history is cleared; once the window has elapsed the
in-memory cache no longer reports a duplicate and (with no persistent
oracle) the detection is approved again. -/
theorem C3_duplicate_window (m : ViolationManager) (d : Detection)
    (cam code p : String) (t t0 : ℚ) (r : ViolationRule)
    (hp : d.plate_number = some p) (hpne : p ≠ "")
    (hwin : m.deduplicator.time_window = 60)
    (hdb : m.deduplicator.db_repository = none)
    (hcache : m.deduplicator.recent_violations p = some t0)
    (hrule : m.evaluate_rules d = some r)
    (hver : (m.verifier.add_detection t p).fst = true) :
    (t - t0 < 60 →
       (m.process_detection t code d cam).fst =
         { should_log := false, reason := "Duplicate within 60s", violation_code := none } ∧
       (m.process_detection t code d cam).snd.verifier.detection_buffer p = [] ∧
       (m.process_detection t code d cam).snd.stats.duplicates_prevented =
         m.stats.duplicates_prevented + 1) ∧
    (¬ t - t0 < 60 →
       (m.deduplicator.is_duplicate t (some p)).fst = false ∧
       (m.process_detection t code d cam).fst.should_log = true) := by
  have hkey : trackingKey d cam = p := by
    simp [trackingKey, hp, hpne]
  have hnp : d.has_plate = true := by simp [Detection.has_plate, hp]
  have hsixty : toString (60 : ℚ) = "60" := rfl
  constructor
  · intro hlt
    have hdup : m.deduplicator.is_duplicate t d.plate_number = (true, m.deduplicator) := by
      simp [DuplicationChecker.is_duplicate, hp, hpne, hcache, hwin, hlt]
    simp only [ViolationManager.process_detection, ViolationManager.evaluate_rules] at hrule ⊢
    simp [hrule, hkey, hver, hnp, hdup, hwin, ConsecutiveFrameVerifier.reset]
    rfl
  · intro hge
    have hdup : m.deduplicator.is_duplicate t d.plate_number = (false, m.deduplicator) := by
      simp [DuplicationChecker.is_duplicate, hp, hpne, hcache, hwin, hge, hdb]
    constructor
    · rw [← hp, hdup]
    · simp only [ViolationManager.process_detection, ViolationManager.evaluate_rules] at hrule ⊢
      simp [hrule, hkey, hver, hnp, hdup]

/-! ## C4 — a logged decision does not clear the verification history -/

/-- A manager whose `NO_PLATE_CAM` history is already full with the
timestamps 0, 1, 2. -/
def verifiedManager : ViolationManager :=
  { testManager with
      verifier := { required_frames := 3, time_window := 5,
                    detection_buffer := fun k => if k = "NO_PLATE_CAM" then [0, 1, 2] else [] } }

/-- The default rule list selects `NoHelmetRule` for the 0.95-confidence
no-helmet detection. -/
theorem find_default_high :
    default_rules.find? (fun r => r.evaluate testDetection) = some (NoHelmetRule (6/10)) := by
  have h : (NoHelmetRule (6/10)).evaluate testDetection = true := by
    simp [ViolationRule.evaluate, NoHelmetRule, RuleKind.violationType, testDetection]
    norm_num
  simp [default_rules, List.find?, h]

/-- Rule-gate outcome for the fresh test manager. -/
theorem testManager_rule :
    testManager.evaluate_rules testDetection = some (NoHelmetRule (6/10)) := by
  simp only [ViolationManager.evaluate_rules]
  have h : testManager.rules = default_rules := rfl
  rw [h, find_default_high]

/-- Rule-gate outcome for the pre-verified manager. -/
theorem verifiedManager_rule :
    verifiedManager.evaluate_rules testDetection = some (NoHelmetRule (6/10)) := by
  simp only [ViolationManager.evaluate_rules]
  have h : verifiedManager.rules = default_rules := rfl
  rw [h, find_default_high]

/-- C4 counterexample: after the third call verifies (calls at t = 0, 1, 2),
a fourth matching, plate-less (hence never duplicate-checked) detection at
t = 100 is NOT approved — its three-frame window 1..100 exceeds the 5 s
verification window — refuting "every matching detection after the first
verified one is approved for logging". -/
theorem C4_counterexample :
    (((testManager.process_detection 0 "V1" testDetection "CAM").snd.process_detection 1 "V2"
        testDetection "CAM").snd.process_detection 2 "V3" testDetection "CAM").fst.should_log =
      true ∧
    testDetection.has_plate = false ∧
    ((((testManager.process_detection 0 "V1" testDetection "CAM").snd.process_detection 1 "V2"
        testDetection "CAM").snd.process_detection 2 "V3" testDetection "CAM").snd.evaluate_rules
        testDetection).isSome = true ∧
    ((((testManager.process_detection 0 "V1" testDetection "CAM").snd.process_detection 1 "V2"
        testDetection "CAM").snd.process_detection 2 "V3" testDetection
        "CAM").snd.process_detection 100 "V4" testDetection "CAM").fst.should_log = false := by
  obtain ⟨h1, h2, h3, hbuf3, hrules3, hreq3, hwin3⟩ :=
    three_call_run testManager testDetection "CAM" "V1" "V2" "V3" 0 1 2 (NoHelmetRule (6/10))
      rfl rfl rfl testManager_rule rfl
  set m3 := ((testManager.process_detection 0 "V1" testDetection "CAM").snd.process_detection 1
    "V2" testDetection "CAM").snd.process_detection 2 "V3" testDetection "CAM" with hm3
  have hrule3 : m3.snd.evaluate_rules testDetection = some (NoHelmetRule (6/10)) := by
    rw [evaluate_rules_congr testManager m3.snd testDetection hrules3, testManager_rule]
  obtain ⟨hd4, _, _, _⟩ :=
    process_detection_step m3.snd 100 "V4" testDetection "CAM" (NoHelmetRule (6/10)) hrule3 rfl
  have hv4 : (m3.snd.verifier.add_detection 100 (trackingKey testDetection "CAM")).fst = false := by
    simp [ConsecutiveFrameVerifier.add_detection, hbuf3, hreq3, hwin3, dequeAppend,
      List.getLastD]
    norm_num
  refine ⟨h3.mpr (by norm_num), rfl, ?_, ?_⟩
  · rw [hrule3]
    rfl
  · rw [hd4, hv4]
    simp

/-- C4 (amended): a `should_log=true` decision leaves the verifier exactly
as `add_detection` left it — the history is reset only on a duplicate
outcome — and consequently a following matching, plate-less detection at
`t4` is approved again provided its span with the second-oldest retained
timestamp stays below the 5 s window. -/
theorem C4_success_keeps_history (m : ViolationManager) (now t4 : ℚ)
    (code code4 : String) (d : Detection) (cam : String) :
    ((m.process_detection now code d cam).fst.should_log = true →
       (m.process_detection now code d cam).snd.verifier =
         (m.verifier.add_detection now (trackingKey d cam)).snd) ∧
    (∀ (r : ViolationRule) (t1 t2 t3 : ℚ),
       m.evaluate_rules d = some r → d.plate_number = none →
       m.verifier.required_frames = 3 → m.verifier.time_window = 5 →
       m.verifier.detection_buffer (trackingKey d cam) = [t1, t2, t3] →
       t4 - t2 < 5 →
       (m.process_detection t4 code4 d cam).fst.should_log = true) := by
  constructor
  · intro hlog
    simp only [ViolationManager.process_detection, ViolationManager.evaluate_rules] at hlog ⊢
    cases hfind : List.find? (fun r => r.evaluate d) m.rules with
    | none => simp [hfind] at hlog
    | some r =>
      simp only [hfind] at hlog ⊢
      by_cases hv : (m.verifier.add_detection now (trackingKey d cam)).fst
      · simp only [hv] at hlog ⊢
        by_cases hpl : d.has_plate
        · by_cases hdup : (m.deduplicator.is_duplicate now d.plate_number).fst
          · simp [hpl, hdup] at hlog
          · simp [hpl, hdup]
        · simp only [Bool.not_eq_true] at hpl
          simp [hpl]
      · simp only [Bool.not_eq_true] at hv
        simp [hv] at hlog
  · intro r t1 t2 t3 hr hp hreq hwin hbuf himm
    obtain ⟨hd, _, _, _⟩ := process_detection_step m t4 code4 d cam r hr hp
    have hfst : (m.verifier.add_detection t4 (trackingKey d cam)).fst = true := by
      simp [ConsecutiveFrameVerifier.add_detection, hbuf, hreq, hwin, dequeAppend,
        List.getLastD, himm]
    rw [hd, hfst]
    simp

/-- C4 witness: concrete instantiation of both halves of
`C4_success_keeps_history`. -/
theorem C4_witness :
    (verifiedManager.process_detection 3 "V4" testDetection "CAM").snd.verifier =
      (verifiedManager.verifier.add_detection 3 (trackingKey testDetection "CAM")).snd ∧
    (verifiedManager.process_detection 3 "V4" testDetection "CAM").fst.should_log = true :=
  have h2 : (verifiedManager.process_detection 3 "V4" testDetection "CAM").fst.should_log =
      true :=
    (C4_success_keeps_history verifiedManager 3 3 "V4" "V4" testDetection "CAM").2
      (NoHelmetRule (6/10)) 0 1 2 verifiedManager_rule rfl rfl rfl rfl (by norm_num)
  ⟨(C4_success_keeps_history verifiedManager 3 3 "V4" "V4" testDetection "CAM").1 h2, h2⟩

/-! ## C5 — dedup cache updated only on successful persist -/

/-- A manager whose repository reports id 0 on save — a non-null id that
Python's `if violation_id:` nevertheless treats as falsy. -/
def zeroIdManager : ViolationManager :=
  { testManager with repository_save := fun _ => some 0 }

/-- C5 counterexample: the repository save returns the non-null id 0, yet
`log_violation` neither records the dedup timestamp for the plate nor
increments the violations-logged counter, because the source guards with
truthiness (`if violation_id:`), not nullness. -/
theorem C5_counterexample :
    (zeroIdManager.log_violation 5
        { violation_type := "no_helmet", plate_number := some "ABC-1234" }).fst = some 0 ∧
    (zeroIdManager.log_violation 5
        { violation_type := "no_helmet",
          plate_number := some "ABC-1234" }).snd.deduplicator.recent_violations "ABC-1234" =
      none ∧
    (zeroIdManager.log_violation 5
        { violation_type := "no_helmet",
          plate_number := some "ABC-1234" }).snd.stats.violations_logged = 0 := by
  decide

/-- C5 (amended): `log_violation` returns exactly what the repository save
returned; it records the dedup timestamp for the record's plate and
increments the violations-logged counter if and only if that id is truthy
(non-null and non-zero); on a null or zero id the manager — dedup cache
included — is unchanged. -/
theorem C5_two_phase (m : ViolationManager) (now : ℚ) (data : ViolationData) (p : String)
    (hp : data.plate_number = some p) (hne : p ≠ "") :
    (m.log_violation now data).fst = m.repository_save data ∧
    (∀ n, m.repository_save data = some n → n ≠ 0 →
       (m.log_violation now data).snd.deduplicator.recent_violations p = some now ∧
       (m.log_violation now data).snd.stats.violations_logged =
         m.stats.violations_logged + 1) ∧
    (m.repository_save data = none → (m.log_violation now data).snd = m) ∧
    (m.repository_save data = some 0 → (m.log_violation now data).snd = m) := by
  simp only [ViolationManager.log_violation]
  cases hsave : m.repository_save data with
  | none => simp [hsave]
  | some vid =>
    by_cases h0 : vid = 0
    · subst h0
      simp [hsave]
    · simp [hsave, h0, DuplicationChecker.mark_logged, hp, hne]

/-- C5 witness: a truthy save (id 1) records the timestamp and bumps the
counter. -/
theorem C5_witness :
    (testManager.log_violation 7
        { violation_type := "no_helmet",
          plate_number := some "XYZ-99" }).snd.deduplicator.recent_violations "XYZ-99" =
      some 7 ∧
    (testManager.log_violation 7
        { violation_type := "no_helmet", plate_number := some "XYZ-99" }).snd.stats.violations_logged =
      testManager.stats.violations_logged + 1 :=
  (C5_two_phase testManager 7
      { violation_type := "no_helmet", plate_number := some "XYZ-99" } "XYZ-99" rfl
      (by decide)).2.1 1 rfl (by decide)

/-! ## Witnesses for C1–C3 -/

/-- C1 witness: confidence 0.59 is refused, confidence 0.95 with a primed
verification history and no identifier is approved. -/
theorem C1_witness :
    (testManager.process_detection 0 "VC" lowConfDetection "CAM").fst.should_log = false ∧
    (primedManager.process_detection 2 "VC" testDetection "CAM").fst.should_log = true :=
  have hver : (primedManager.verifier.add_detection 2 (trackingKey testDetection "CAM")).fst =
      true := by
    have hkey : trackingKey testDetection "CAM" = "NO_PLATE_CAM" := rfl
    rw [hkey]
    simp [primedManager, testManager, ConsecutiveFrameVerifier.add_detection, dequeAppend,
      List.getLastD]
    norm_num
  ⟨(C1_rule_gate testManager 0 "VC" testDetection lowConfDetection testDetection
      "CAM").2.2.2.1 rfl rfl rfl,
   (C1_rule_gate primedManager 2 "VC" testDetection lowConfDetection testDetection
      "CAM").2.2.2.2 rfl rfl rfl rfl hver⟩

/-- C2 witness: three matching plate-less calls at t = 0, 1, 2 — two
pending decisions, then approval since the 2 s span is inside the 5 s
window. -/
theorem C2_witness :
    (testManager.process_detection 0 "V1" testDetection "CAM").fst =
      { should_log := false, reason := "Verification pending (consecutive frames)",
        violation_code := none } ∧
    ((testManager.process_detection 0 "V1" testDetection "CAM").snd.process_detection 1 "V2"
        testDetection "CAM").fst =
      { should_log := false, reason := "Verification pending (consecutive frames)",
        violation_code := none } ∧
    ((((testManager.process_detection 0 "V1" testDetection "CAM").snd.process_detection 1 "V2"
        testDetection "CAM").snd.process_detection 2 "V3" testDetection "CAM").fst.should_log =
        true ↔ (2 : ℚ) - 0 < 5) :=
  (C2_verification_three_frames testManager testDetection "CAM" "V1" "V2" "V3" 0 1 2
    (NoHelmetRule (6/10)) rfl rfl rfl testManager_rule rfl (by norm_num) (by norm_num)).1

/-- A manager whose cache remembers plate `ABC-1234` as logged at t = 0 and
whose verification history for that plate holds two recent frames. -/
def dupManager : ViolationManager :=
  { testManager with
      verifier := { required_frames := 3, time_window := 5,
                    detection_buffer := fun k => if k = "ABC-1234" then [10, 11] else [] },
      deduplicator := { time_window := 60, db_repository := none,
                        recent_violations := fun k => if k = "ABC-1234" then some 0 else none } }

/-- A matching detection carrying the plate `ABC-1234`. -/
def plateDetection : Detection :=
  { violation_type := "no_helmet", confidence := 95/100, bbox := (0, 0, 0, 0), timestamp := 0,
    plate_number := some "ABC-1234" }

/-- The default rule list selects `NoHelmetRule` for the plate-carrying
detection. -/
theorem find_default_plate :
    default_rules.find? (fun r => r.evaluate plateDetection) = some (NoHelmetRule (6/10)) := by
  have h : (NoHelmetRule (6/10)).evaluate plateDetection = true := by
    simp [ViolationRule.evaluate, NoHelmetRule, RuleKind.violationType, plateDetection]
    norm_num
  simp [default_rules, List.find?, h]

/-- Rule-gate outcome for the duplicate-primed manager. -/
theorem dupManager_rule :
    dupManager.evaluate_rules plateDetection = some (NoHelmetRule (6/10)) := by
  simp only [ViolationManager.evaluate_rules]
  have h : dupManager.rules = default_rules := rfl
  rw [h, find_default_plate]

/-- The third consecutive frame for `ABC-1234` verifies. -/
theorem dupManager_ver : (dupManager.verifier.add_detection 12 "ABC-1234").fst = true := by
  simp [dupManager, testManager, ConsecutiveFrameVerifier.add_detection, dequeAppend,
    List.getLastD]
  norm_num

/-- C3 witness: at t = 12 (inside the 60 s window of the t = 0 log) the
plate is refused as a duplicate and its history is cleared. -/
theorem C3_witness :
    (dupManager.process_detection 12 "VC" plateDetection "CAM").fst =
      { should_log := false, reason := "Duplicate within 60s", violation_code := none } ∧
    (dupManager.process_detection 12 "VC" plateDetection "CAM").snd.verifier.detection_buffer
        "ABC-1234" = [] ∧
    (dupManager.process_detection 12 "VC" plateDetection "CAM").snd.stats.duplicates_prevented =
      dupManager.stats.duplicates_prevented + 1 :=
  (C3_duplicate_window dupManager plateDetection "CAM" "VC" "ABC-1234" 12 0
    (NoHelmetRule (6/10)) rfl (by decide) rfl rfl rfl dupManager_rule dupManager_ver).1
    (by norm_num)

/-! ## db_pool.py — retry_on_db_error -/

/-- Outcome of one invocation of a wrapped store operation: a return
value, or one of the three exception classes the source handles
separately (`exc.OperationalError`; any other `exc.DBAPIError`; any
other `Exception`), carrying an opaque exception payload. -/
inductive DbOutcome (α ε : Type) where
  | ok (a : α)
  | operational (e : ε)
  | dbapi (e : ε)
  | other (e : ε)
deriving DecidableEq

/-- What comes out of the wrapped call: the value returned or the
exception that propagates, together with how many times the operation was
invoked and the total backoff time slept.  `retryExhausted` is the
distinct `DatabaseRetryError`, chained (`raise ... from last_exception`)
to its cause. -/
inductive DbCallResult (α ε : Type) where
  | success (a : α) (calls : Nat) (slept : ℚ)
  | dbapiRaised (e : ε) (calls : Nat) (slept : ℚ)
  | otherRaised (e : ε) (calls : Nat) (slept : ℚ)
  | retryExhausted (cause : Option ε) (calls : Nat) (slept : ℚ)
deriving DecidableEq

/-- The `for attempt in range(max_retries)` loop of `retry_on_db_error`:
on `OperationalError` record it as `last_exception`, sleep
`base_delay * 2 ^ attempt` and continue; on any other `DBAPIError` or
`Exception` re-raise at once; when attempts run out raise the
retry-exhausted error from the last recorded cause. -/
def retryGo {α ε : Type} (f : Nat → DbOutcome α ε) (base_delay : ℚ) :
    Nat → Nat → Nat → ℚ → Option ε → DbCallResult α ε
  | 0, _, calls, slept, lastE => .retryExhausted lastE calls slept
  | remaining + 1, attempt, calls, slept, lastE =>
    match f attempt with
    | .ok a => .success a (calls + 1) slept
    | .operational e =>
        retryGo f base_delay remaining (attempt + 1) (calls + 1)
          (slept + base_delay * 2 ^ attempt) (some e)
    | .dbapi e => .dbapiRaised e (calls + 1) slept
    | .other e => .otherRaised e (calls + 1) slept

/-- `retry_on_db_error(max_retries, base_delay)` applied to an operation
whose behavior on its `i`-th invocation is `f i`. -/
def retry_on_db_error {α ε : Type} (max_retries : Nat) (base_delay : ℚ)
    (f : Nat → DbOutcome α ε) : DbCallResult α ε :=
  retryGo f base_delay max_retries 0 0 0 none

/-- C6: with `max_retries = 3` and base delay `b` — two connection-class
failures then a success return the success after exactly 3 invocations
with total sleep `b·(1+2) = 3b`; a data/integrity-class error propagates
at once, after one invocation, with no sleep; three connection-class
failures raise the distinct retry-exhausted error chained to the last
underlying cause. -/
theorem C6_retry_backoff {α ε : Type} (b : ℚ) (a : α) (e0 e1 e2 ed : ε)
    (f g k : Nat → DbOutcome α ε)
    (hf0 : f 0 = .operational e0) (hf1 : f 1 = .operational e1) (hf2 : f 2 = .ok a)
    (hg0 : g 0 = .dbapi ed)
    (hk0 : k 0 = .operational e0) (hk1 : k 1 = .operational e1)
    (hk2 : k 2 = .operational e2) :
    retry_on_db_error 3 b f = .success a 3 (3 * b) ∧
    retry_on_db_error 3 b g = .dbapiRaised ed 1 0 ∧
    retry_on_db_error 3 b k = .retryExhausted (some e2) 3 (7 * b) := by
  refine ⟨?_, ?_, ?_⟩
  · have h1 : retry_on_db_error 3 b f =
        .success a 3 (0 + b * 2 ^ 0 + b * 2 ^ 1) := by
      simp [retry_on_db_error, retryGo, hf0, hf1, hf2]
    rw [h1]
    congr 1
    ring
  · simp [retry_on_db_error, retryGo, hg0]
  · have h1 : retry_on_db_error 3 b k =
        .retryExhausted (some e2) 3 (0 + b * 2 ^ 0 + b * 2 ^ 1 + b * 2 ^ 2) := by
      simp [retry_on_db_error, retryGo, hk0, hk1, hk2]
    rw [h1]
    congr 1
    ring

/-- C6 witness: concrete operations over `Nat` values and `Nat` exception
payloads, at base delay 1. -/
theorem C6_witness :
    retry_on_db_error 3 1
        (fun i => if i < 2 then DbOutcome.operational i else DbOutcome.ok 42) =
      DbCallResult.success (ε := Nat) 42 3 (3 * 1) ∧
    retry_on_db_error 3 1 (fun _ => (DbOutcome.dbapi 7 : DbOutcome Nat Nat)) =
      DbCallResult.dbapiRaised 7 1 0 ∧
    retry_on_db_error 3 1 (fun i => (DbOutcome.operational i : DbOutcome Nat Nat)) =
      DbCallResult.retryExhausted (some 2) 3 (7 * 1) :=
  C6_retry_backoff 1 42 0 1 2 7
    (fun i => if i < 2 then DbOutcome.operational i else DbOutcome.ok 42)
    (fun _ => DbOutcome.dbapi 7)
    (fun i => DbOutcome.operational i)
    rfl rfl rfl rfl rfl rfl rfl

/-! ## app.py — bounded queue push policies -/

/-- Capture stage push (`frame_capture_loop`): `put_nowait(pair)`; on
`queue.Full`, `get_nowait()` the oldest item and push the new pair (the
`except queue.Empty: pass` arm, reachable only for a zero-capacity queue,
drops the new pair).  A Python `queue.Queue(maxsize)` is full iff
`0 < maxsize ∧ maxsize ≤ qsize`. -/
def frame_queue_push {α : Type} (maxsize : Nat) (q : List α) (x : α) : List α :=
  if maxsize = 0 ∨ q.length < maxsize then q ++ [x]
  else
    match q with
    | [] => []
    | _ :: rest => rest ++ [x]

/-- A single capture-stage push never grows the queue past capacity. -/
theorem frame_queue_push_length {α : Type} (cap : Nat) (q : List α) (x : α)
    (hcap : 0 < cap) (h : q.length ≤ cap) : (frame_queue_push cap q x).length ≤ cap := by
  rcases Nat.lt_or_ge q.length cap with hlt | hge
  · simp [frame_queue_push, hlt]
    omega
  · have hlen : q.length = cap := le_antisymm h hge
    cases q with
    | nil => simp at hlen; omega
    | cons a t =>
      simp [frame_queue_push, hlen, Nat.lt_irrefl, Nat.pos_iff_ne_zero.mp hcap]
      simp at hlen
      omega

/-- C9: the capture stage's drop-oldest policy — a push onto a full queue
removes the item that is oldest at that moment and appends the new one;
any sequence of pushes starting from empty keeps at most `cap` items; six
rapid pushes into a capacity-5 queue leave exactly items 2..6. -/
theorem C9_capture_drop_oldest {α : Type} (cap : Nat) (q : List α) (x hd : α) (t : List α)
    (hcap : 0 < cap) :
    (q.length ≤ cap → (frame_queue_push cap q x).length ≤ cap) ∧
    (q = hd :: t → q.length = cap → frame_queue_push cap q x = t ++ [x]) ∧
    (∀ xs : List α, (xs.foldl (frame_queue_push cap) []).length ≤ cap) ∧
    List.foldl (frame_queue_push 5) ([] : List Nat) [1, 2, 3, 4, 5, 6] = [2, 3, 4, 5, 6] := by
  refine ⟨fun h => frame_queue_push_length cap q x hcap h, ?_, ?_, by decide⟩
  · intro hq hlen
    subst hq
    simp [frame_queue_push, hlen, Nat.lt_irrefl, Nat.pos_iff_ne_zero.mp hcap]
  · intro xs
    have key : ∀ (ys : List α) (acc : List α), acc.length ≤ cap →
        (ys.foldl (frame_queue_push cap) acc).length ≤ cap := by
      intro ys
      induction ys with
      | nil => intro acc hacc; simpa using hacc
      | cons y ys ih =>
        intro acc hacc
        exact ih _ (frame_queue_push_length cap acc y hcap hacc)
    exact key xs [] (by simp)

/-- C9 witness: capacity 3, a full queue `[a, b, c]` receiving `d` drops
`a`. -/
theorem C9_witness :
    frame_queue_push 3 [10, 20, 30] 40 = [20, 30, 40] ∧
    (List.foldl (frame_queue_push 3) ([] : List Nat) [10, 20, 30, 40]).length ≤ 3 :=
  ⟨(C9_capture_drop_oldest 3 [10, 20, 30] 40 10 [20, 30] (by decide)).2.1 rfl (by decide),
   (C9_capture_drop_oldest 3 ([] : List Nat) 0 0 [] (by decide)).2.2.1 [10, 20, 30, 40]⟩

/-- Inference stage push (`ai_processing_loop`): the
`try: ai_processing_queue.put_nowait(ai_result) / except queue.Full:
logger.warning("AI queue full, dropping violation")` block.  Its complete
effect is the returned queue plus the warning message logged, if any —
the source updates nothing else on this path. -/
def ai_queue_push {α : Type} (maxsize : Nat) (q : List α) (x : α) : List α × Option String :=
  if maxsize = 0 ∨ q.length < maxsize then (q ++ [x], none)
  else (q, some "AI queue full, dropping violation")

/-- C10 counterexample: pushing a 6th result onto the full capacity-5
persistence queue leaves the queue exactly as it was and merely logs the
warning — the block's complete effect contains no counter update, so no
"dropped" counter is incremented (no such counter exists in
`ai_processing_loop`; the claim's queue-unchanged part is what survives). -/
theorem C10_counterexample :
    ai_queue_push 5 [1, 2, 3, 4, 5] 6 =
      ([1, 2, 3, 4, 5], some "AI queue full, dropping violation") := by
  decide

/-- C10 (amended): on a full queue the new result is dropped, the queue's
existing contents are left unchanged (no older item evicted) and the
warning "AI queue full, dropping violation" is logged; no dropped counter
is incremented because none exists on this path.  On a non-full queue the
result is appended and nothing is logged. -/
theorem C10_drop_newest {α : Type} (cap : Nat) (q : List α) (x : α) :
    (cap ≤ q.length → 0 < cap →
       ai_queue_push cap q x = (q, some "AI queue full, dropping violation")) ∧
    (q.length < cap → ai_queue_push cap q x = (q ++ [x], none)) := by
  constructor
  · intro hfull hcap
    have h1 : ¬ (cap = 0 ∨ q.length < cap) := by omega
    simp [ai_queue_push, h1]
  · intro hroom
    simp [ai_queue_push, hroom]

/-- C10 witness: a full capacity-2 queue drops the incoming item; a
one-slot-free queue appends it. -/
theorem C10_witness :
    ai_queue_push 2 [11, 22] 33 = ([11, 22], some "AI queue full, dropping violation") ∧
    ai_queue_push 2 [11] 22 = ([11, 22], none) :=
  ⟨(C10_drop_newest 2 [11, 22] 33).1 (by decide) (by decide),
   (C10_drop_newest 2 [11] 22).2 (by decide)⟩

/-! ## frame_sync.py — FrameSynchronizer -/

/-- `TimestampedFrame`: the image payload is opaque; a `Nat` identity
stands in for the pixel buffer so delivery and removal can be tracked. -/
structure TimestampedFrame where
  frame : Nat
  timestamp : ℚ
  camera_type : String
  brightness : ℚ := 0
deriving DecidableEq, Repr

/-- `FramePair`: the synchronizer's output value. -/
structure FramePair where
  wide_frame : Nat
  plate_frame : Option Nat
  timestamp : ℚ
  wide_brightness : ℚ := 0
  plate_brightness : ℚ := 0
  is_synchronized : Bool := true
deriving DecidableEq, Repr

/-- `BUFFER_MAX_AGE_SECONDS = 2.0`. -/
def BUFFER_MAX_AGE_SECONDS : ℚ := 2

/-- `FrameSynchronizer` state: tolerance (seconds), the two rolling
buffers (oldest first, newest appended at the right, matching
`deque.append` / `buffer[-1]`), and the statistics counters. -/
structure FrameSynchronizer where
  sync_tolerance : ℚ
  buffer_size : Nat
  wide_buffer : List TimestampedFrame
  plate_buffer : List TimestampedFrame
  pairs_created : Nat := 0
  wide_only : Nat := 0
  sync_failures : Nat := 0
  dropped_old_frames : Nat := 0
deriving Repr

/-- `_cleanup_old_frames` on one buffer: pop from the left while the
oldest frame's age exceeds the max age, counting the drops (the loop
stops at the first young enough frame). -/
def cleanupBuffer (now : ℚ) : List TimestampedFrame → List TimestampedFrame × Nat
  | [] => ([], 0)
  | f :: rest =>
    if now - f.timestamp > BUFFER_MAX_AGE_SECONDS then
      let r := cleanupBuffer now rest
      (r.fst, r.snd + 1)
    else (f :: rest, 0)

/-- The accumulator loop of `_find_matching_frame`: `best_match` starts at
`None` (`best_diff` at infinity, so any within-tolerance frame replaces
it); a frame takes over only when within tolerance and strictly closer
than the current best. -/
def findGo (tol target : ℚ) : List TimestampedFrame → Option TimestampedFrame →
    Option TimestampedFrame
  | [], best => best
  | f :: rest, best =>
    let td := |f.timestamp - target|
    let takes : Bool :=
      decide (td ≤ tol) &&
        (match best with
         | none => true
         | some b => decide (td < |b.timestamp - target|))
    if takes then findGo tol target rest (some f) else findGo tol target rest best

/-- `FrameSynchronizer._find_matching_frame`. -/
def FrameSynchronizer.find_matching_frame (s : FrameSynchronizer) (target : ℚ)
    (buffer : List TimestampedFrame) : Option TimestampedFrame :=
  findGo s.sync_tolerance target buffer none

/-- One iteration of the `get_synchronized_pair` polling loop at wall
time `now` (one pass through the `with self.lock:` body): clean both
buffers, take the newest wide frame if any, pair it with the best
matching plate frame (consuming both), otherwise degrade to a wide-only
pair when the plate buffer is empty or the wide frame has aged past the
tolerance, otherwise report nothing yet. -/
def FrameSynchronizer.sync_attempt (s : FrameSynchronizer) (now : ℚ) :
    Option FramePair × FrameSynchronizer :=
  let cw := cleanupBuffer now s.wide_buffer
  let cp := cleanupBuffer now s.plate_buffer
  let s1 : FrameSynchronizer :=
    { s with wide_buffer := cw.fst, plate_buffer := cp.fst,
             dropped_old_frames := s.dropped_old_frames + cw.snd + cp.snd }
  match s1.wide_buffer.getLast? with
  | none => (none, s1)
  | some wide =>
    match s1.find_matching_frame wide.timestamp s1.plate_buffer with
    | some plate =>
      (some { wide_frame := wide.frame, plate_frame := some plate.frame,
              timestamp := wide.timestamp, wide_brightness := wide.brightness,
              plate_brightness := plate.brightness, is_synchronized := true },
       { s1 with wide_buffer := s1.wide_buffer.dropLast,
                 plate_buffer := s1.plate_buffer.erase plate,
                 pairs_created := s1.pairs_created + 1 })
    | none =>
      if s1.plate_buffer.length = 0 ∨ now - wide.timestamp > s1.sync_tolerance then
        (some { wide_frame := wide.frame, plate_frame := none,
                timestamp := wide.timestamp, wide_brightness := wide.brightness,
                is_synchronized := false },
         { s1 with wide_buffer := s1.wide_buffer.dropLast,
                   wide_only := s1.wide_only + 1 })
      else (none, s1)

/-- `get_synchronized_pair`: poll once per instant in `times` (the
while-loop iterations inside the timeout window); an exhausted timeout
counts a sync failure and returns nothing. -/
def FrameSynchronizer.get_synchronized_pair :
    FrameSynchronizer → List ℚ → Option FramePair × FrameSynchronizer
  | s, [] => (none, { s with sync_failures := s.sync_failures + 1 })
  | s, t :: ts =>
    match s.sync_attempt t with
    | (some pair, s1) => (some pair, s1)
    | (none, s1) => s1.get_synchronized_pair ts

/-- Modelled from the spec's words for the C7 refinement comparison: "pick
the one with the smallest absolute time difference; ties broken by buffer
order (oldest wins)" — keep the head frame unless a strictly closer match
exists later in the buffer; skip frames outside the tolerance. -/
def specBestMatch (tol target : ℚ) : List TimestampedFrame → Option TimestampedFrame
  | [] => none
  | f :: rest =>
    if |f.timestamp - target| ≤ tol then
      match specBestMatch tol target rest with
      | some g =>
        if |g.timestamp - target| < |f.timestamp - target| then some g else some f
      | none => some f
    else specBestMatch tol target rest

/-- How an accumulator combines with the best of the remaining frames:
the earlier candidate wins ties. -/
def combineBest (target : ℚ) :
    Option TimestampedFrame → Option TimestampedFrame → Option TimestampedFrame
  | none, m => m
  | some b, none => some b
  | some b, some g =>
    if |g.timestamp - target| < |b.timestamp - target| then some g else some b

/-- The source's accumulator scan equals folding the spec-side selection
against the carried best. -/
theorem findGo_eq_combine (tol target : ℚ) (l : List TimestampedFrame) :
    ∀ best, findGo tol target l best = combineBest target best (specBestMatch tol target l) := by
  induction l with
  | nil =>
    intro best
    cases best <;> simp [findGo, specBestMatch, combineBest]
  | cons f rest ih =>
    intro best
    by_cases hf : |f.timestamp - target| ≤ tol
    · cases best with
      | none =>
        rw [show findGo tol target (f :: rest) none = findGo tol target rest (some f) by
          simp [findGo, hf]]
        rw [ih (some f)]
        cases hsr : specBestMatch tol target rest with
        | none => simp [combineBest, specBestMatch, hf, hsr]
        | some g =>
          by_cases hg : |g.timestamp - target| < |f.timestamp - target| <;>
            simp [combineBest, specBestMatch, hf, hsr, hg]
      | some b =>
        by_cases hfb : |f.timestamp - target| < |b.timestamp - target|
        · rw [show findGo tol target (f :: rest) (some b) = findGo tol target rest (some f) by
            simp [findGo, hf, hfb]]
          rw [ih (some f)]
          cases hsr : specBestMatch tol target rest with
          | none => simp [combineBest, specBestMatch, hf, hsr, hfb]
          | some g =>
            by_cases hg : |g.timestamp - target| < |f.timestamp - target|
            · have hgb : |g.timestamp - target| < |b.timestamp - target| := hg.trans hfb
              simp [combineBest, specBestMatch, hf, hsr, hg, hgb]
            · simp [combineBest, specBestMatch, hf, hsr, hg, hfb]
        · rw [show findGo tol target (f :: rest) (some b) = findGo tol target rest (some b) by
            simp [findGo, hf, hfb]]
          rw [ih (some b)]
          cases hsr : specBestMatch tol target rest with
          | none => simp [combineBest, specBestMatch, hf, hsr, hfb]
          | some g =>
            by_cases hg : |g.timestamp - target| < |f.timestamp - target|
            · simp [combineBest, specBestMatch, hf, hsr, hg]
            · have hgb : ¬ |g.timestamp - target| < |b.timestamp - target| := by
                push_neg at hfb hg ⊢
                exact hfb.trans hg
              simp [combineBest, specBestMatch, hf, hsr, hg, hfb, hgb]
    · rw [show findGo tol target (f :: rest) best = findGo tol target rest best by
        cases best <;> simp [findGo, hf]]
      rw [ih best]
      simp [specBestMatch, hf]

/-- The source's search equals the spec-side selection. -/
theorem find_matching_eq_spec (s : FrameSynchronizer) (target : ℚ)
    (l : List TimestampedFrame) :
    s.find_matching_frame target l = specBestMatch s.sync_tolerance target l := by
  rw [FrameSynchronizer.find_matching_frame, findGo_eq_combine]
  cases specBestMatch s.sync_tolerance target l <;> simp [combineBest]

/-- The spec-side selection fails exactly when no frame is within
tolerance. -/
theorem specBestMatch_none (tol target : ℚ) (l : List TimestampedFrame) :
    specBestMatch tol target l = none ↔ ∀ g ∈ l, ¬ |g.timestamp - target| ≤ tol := by
  induction l with
  | nil => simp [specBestMatch]
  | cons f rest ih =>
    by_cases hf : |f.timestamp - target| ≤ tol
    · cases hsr : specBestMatch tol target rest with
      | none => simp [specBestMatch, hf, hsr]
      | some g =>
        have hL : specBestMatch tol target (f :: rest) ≠ none := by
          by_cases hg : |g.timestamp - target| < |f.timestamp - target| <;>
            simp [specBestMatch, hf, hsr, hg]
        constructor
        · intro hc
          exact absurd hc hL
        · intro hall
          exact absurd hf (hall f (by simp))
    · simp [specBestMatch, hf, ih]
      exact fun _ => not_le.mp hf

/-- Characterization of the spec-side selection: the chosen frame is
within tolerance, every strictly earlier within-tolerance frame is
strictly farther, and every later within-tolerance frame is at least as
far. -/
theorem specBestMatch_spec (tol target : ℚ) (l : List TimestampedFrame)
    (b : TimestampedFrame) (h : specBestMatch tol target l = some b) :
    |b.timestamp - target| ≤ tol ∧
    ∃ pre post, l = pre ++ b :: post ∧
      (∀ g ∈ pre, |g.timestamp - target| ≤ tol →
         |b.timestamp - target| < |g.timestamp - target|) ∧
      (∀ g ∈ post, |g.timestamp - target| ≤ tol →
         |b.timestamp - target| ≤ |g.timestamp - target|) := by
  induction l generalizing b with
  | nil => simp [specBestMatch] at h
  | cons f rest ih =>
    by_cases hf : |f.timestamp - target| ≤ tol
    · cases hsr : specBestMatch tol target rest with
      | none =>
        have hempty : ∀ g ∈ rest, ¬ |g.timestamp - target| ≤ tol :=
          (specBestMatch_none tol target rest).mp hsr
        simp [specBestMatch, hf, hsr] at h
        subst h
        refine ⟨hf, [], rest, by simp, by simp, ?_⟩
        intro g hg hgt
        exact absurd hgt (hempty g hg)
      | some g =>
        by_cases hg : |g.timestamp - target| < |f.timestamp - target|
        · simp [specBestMatch, hf, hsr, hg] at h
          subst h
          obtain ⟨hbt, pre, post, hrest, hpre, hpost⟩ := ih g hsr
          refine ⟨hbt, f :: pre, post, by simp [hrest], ?_, hpost⟩
          intro x hx hxt
          rcases List.mem_cons.mp hx with hxf | hxp
          · subst hxf
            exact hg
          · exact hpre x hxp hxt
        · simp [specBestMatch, hf, hsr, hg] at h
          subst h
          obtain ⟨hgt, pre, post, hrest, hpre, hpost⟩ := ih g hsr
          push_neg at hg
          refine ⟨hf, [], rest, by simp, by simp, ?_⟩
          intro x hx hxt
          subst hrest
          rcases List.mem_append.mp hx with hxp | hxc
          · exact le_trans hg (le_of_lt (hpre x hxp hxt))
          · rcases List.mem_cons.mp hxc with hxg | hxq
            · subst hxg
              exact hg
            · exact le_trans hg (hpost x hxq hxt)
    · simp only [specBestMatch, hf, if_neg] at h
      obtain ⟨hbt, pre, post, hrest, hpre, hpost⟩ := ih b h
      refine ⟨hbt, f :: pre, post, by simp [hrest], ?_, hpost⟩
      intro x hx hxt
      rcases List.mem_cons.mp hx with hxf | hxp
      · subst hxf
        exact absurd hxt hf
      · exact hpre x hxp hxt

/-- Cleaning a buffer whose frames are all fresh does nothing. -/
theorem cleanupBuffer_fresh (now : ℚ) (l : List TimestampedFrame)
    (h : ∀ f ∈ l, ¬ now - f.timestamp > BUFFER_MAX_AGE_SECONDS) :
    cleanupBuffer now l = (l, 0) := by
  cases l with
  | nil => rfl
  | cons f rest => simp [cleanupBuffer, h f (by simp)]

/-- C7: whenever some plate-buffer frame lies within the tolerance of the
newest wide frame, `sync_attempt` emits a `synchronized=true` pair built
from the best match — the within-tolerance frame of minimum absolute
timestamp difference, ties going to the earliest-buffered frame — and
removes both chosen frames from their buffers. -/
theorem C7_sync_best_match (s : FrameSynchronizer) (now : ℚ) (wide : TimestampedFrame)
    (hfw : ∀ f ∈ s.wide_buffer, ¬ now - f.timestamp > BUFFER_MAX_AGE_SECONDS)
    (hfp : ∀ f ∈ s.plate_buffer, ¬ now - f.timestamp > BUFFER_MAX_AGE_SECONDS)
    (hlast : s.wide_buffer.getLast? = some wide)
    (hmatch : ∃ g ∈ s.plate_buffer, |g.timestamp - wide.timestamp| ≤ s.sync_tolerance) :
    ∃ best,
      s.find_matching_frame wide.timestamp s.plate_buffer = some best ∧
      (s.sync_attempt now).fst = some
        { wide_frame := wide.frame, plate_frame := some best.frame,
          timestamp := wide.timestamp, wide_brightness := wide.brightness,
          plate_brightness := best.brightness, is_synchronized := true } ∧
      (s.sync_attempt now).snd.wide_buffer = s.wide_buffer.dropLast ∧
      (s.sync_attempt now).snd.plate_buffer = s.plate_buffer.erase best ∧
      |best.timestamp - wide.timestamp| ≤ s.sync_tolerance ∧
      ∃ pre post, s.plate_buffer = pre ++ best :: post ∧
        (∀ g ∈ pre, |g.timestamp - wide.timestamp| ≤ s.sync_tolerance →
           |best.timestamp - wide.timestamp| < |g.timestamp - wide.timestamp|) ∧
        (∀ g ∈ post, |g.timestamp - wide.timestamp| ≤ s.sync_tolerance →
           |best.timestamp - wide.timestamp| ≤ |g.timestamp - wide.timestamp|) := by
  have hcw := cleanupBuffer_fresh now s.wide_buffer hfw
  have hcp := cleanupBuffer_fresh now s.plate_buffer hfp
  have hne : specBestMatch s.sync_tolerance wide.timestamp s.plate_buffer ≠ none := by
    intro hc
    obtain ⟨g, hgmem, hgt⟩ := hmatch
    exact ((specBestMatch_none _ _ _).mp hc) g hgmem hgt
  obtain ⟨best, hbest⟩ := Option.ne_none_iff_exists'.mp hne
  have hfind : s.find_matching_frame wide.timestamp s.plate_buffer = some best := by
    rw [find_matching_eq_spec, hbest]
  have hfind' : findGo s.sync_tolerance wide.timestamp s.plate_buffer none = some best := hfind
  obtain ⟨hbt, pre, post, hdec, hpre, hpost⟩ := specBestMatch_spec _ _ _ _ hbest
  refine ⟨best, hfind, ?_, ?_, ?_, hbt, pre, post, hdec, hpre, hpost⟩ <;>
    simp [FrameSynchronizer.sync_attempt, hcw, hcp, hlast,
      FrameSynchronizer.find_matching_frame, hfind']

/-- The invariant of every emitted pair: `is_synchronized` is exactly the
presence of the plate frame (single attempt). -/
theorem sync_attempt_inv (s : FrameSynchronizer) (now : ℚ) (p : FramePair)
    (s1 : FrameSynchronizer) (h : s.sync_attempt now = (some p, s1)) :
    p.is_synchronized = p.plate_frame.isSome := by
  simp only [FrameSynchronizer.sync_attempt] at h
  split at h
  · simp at h
  · split at h
    · obtain ⟨h1, h2⟩ := Prod.mk.injEq .. ▸ h
      cases h1
      rfl
    · split at h
      · obtain ⟨h1, h2⟩ := Prod.mk.injEq .. ▸ h
        cases h1
        rfl
      · simp at h

/-- The invariant of every emitted pair, through the polling loop. -/
theorem get_pair_inv (times : List ℚ) (s : FrameSynchronizer) (p : FramePair)
    (s1 : FrameSynchronizer) (h : s.get_synchronized_pair times = (some p, s1)) :
    p.is_synchronized = p.plate_frame.isSome := by
  induction times generalizing s with
  | nil => simp [FrameSynchronizer.get_synchronized_pair] at h
  | cons t ts ih =>
    rw [FrameSynchronizer.get_synchronized_pair] at h
    rcases hsa : s.sync_attempt t with ⟨res, s2⟩
    rw [hsa] at h
    cases res with
    | some pair =>
      simp at h
      obtain ⟨h1, _⟩ := h
      subst h1
      exact sync_attempt_inv s t pair s2 hsa
    | none =>
      exact ih s2 h

/-- With no wide frame, one attempt yields nothing and the wide buffer
stays empty. -/
theorem sync_attempt_wide_empty (s : FrameSynchronizer) (now : ℚ)
    (h : s.wide_buffer = []) :
    (s.sync_attempt now).fst = none ∧ (s.sync_attempt now).snd.wide_buffer = [] := by
  simp [FrameSynchronizer.sync_attempt, h, cleanupBuffer]

/-- C8: every pair the synchronizer delivers satisfies
`synchronized == (plate frame present)`; with fresh buffers and newest
wide frame `wide`, a degraded (`synchronized=false`) pair is produced
exactly when no plate frame is within tolerance and the plate buffer is
empty or the wide frame has outlived the tolerance — consuming only the
wide frame; and a wide buffer that stays empty makes the whole polling
loop return no pair. -/
theorem C8_sync_invariant (s : FrameSynchronizer) (now : ℚ) (wide : TimestampedFrame)
    (hfw : ∀ f ∈ s.wide_buffer, ¬ now - f.timestamp > BUFFER_MAX_AGE_SECONDS)
    (hfp : ∀ f ∈ s.plate_buffer, ¬ now - f.timestamp > BUFFER_MAX_AGE_SECONDS)
    (hlast : s.wide_buffer.getLast? = some wide) :
    (∀ (ts : List ℚ) (s0 : FrameSynchronizer) (p : FramePair) (s1 : FrameSynchronizer),
       s0.get_synchronized_pair ts = (some p, s1) →
       p.is_synchronized = p.plate_frame.isSome) ∧
    ((∀ g ∈ s.plate_buffer, ¬ |g.timestamp - wide.timestamp| ≤ s.sync_tolerance) →
     (s.plate_buffer = [] ∨ now - wide.timestamp > s.sync_tolerance) →
       (s.sync_attempt now).fst = some
         { wide_frame := wide.frame, plate_frame := none, timestamp := wide.timestamp,
           wide_brightness := wide.brightness, is_synchronized := false } ∧
       (s.sync_attempt now).snd.wide_buffer = s.wide_buffer.dropLast ∧
       (s.sync_attempt now).snd.plate_buffer = s.plate_buffer) ∧
    (∀ pair, (s.sync_attempt now).fst = some pair → pair.is_synchronized = false →
       (∀ g ∈ s.plate_buffer, ¬ |g.timestamp - wide.timestamp| ≤ s.sync_tolerance) ∧
       (s.plate_buffer = [] ∨ now - wide.timestamp > s.sync_tolerance)) ∧
    (∀ (ts : List ℚ) (s0 : FrameSynchronizer), s0.wide_buffer = [] →
       (s0.get_synchronized_pair ts).fst = none) := by
  have hcw := cleanupBuffer_fresh now s.wide_buffer hfw
  have hcp := cleanupBuffer_fresh now s.plate_buffer hfp
  refine ⟨fun ts s0 p s1 h => get_pair_inv ts s0 p s1 h, ?_, ?_, ?_⟩
  · intro hnomatch hcond
    have hspec : specBestMatch s.sync_tolerance wide.timestamp s.plate_buffer = none :=
      (specBestMatch_none _ _ _).mpr hnomatch
    have hfind' : findGo s.sync_tolerance wide.timestamp s.plate_buffer none = none := by
      have h2 := find_matching_eq_spec s wide.timestamp s.plate_buffer
      simp only [FrameSynchronizer.find_matching_frame] at h2
      rw [h2, hspec]
    have hcond2 : s.plate_buffer = [] ∨ s.sync_tolerance < now - wide.timestamp := hcond
    refine ⟨?_, ?_, ?_⟩ <;>
      simp [FrameSynchronizer.sync_attempt, hcw, hcp, hlast,
        FrameSynchronizer.find_matching_frame, hfind', hcond2]
  · intro pair hp hsync
    simp only [FrameSynchronizer.sync_attempt, hcw, hcp] at hp
    simp only [hlast] at hp
    cases hfind' : findGo s.sync_tolerance wide.timestamp s.plate_buffer none with
    | some pf =>
      simp [FrameSynchronizer.find_matching_frame, hfind'] at hp
      rw [← hp] at hsync
      simp at hsync
    | none =>
      by_cases hcond' : s.plate_buffer.length = 0 ∨ now - wide.timestamp > s.sync_tolerance
      · have hspec : specBestMatch s.sync_tolerance wide.timestamp s.plate_buffer = none := by
          have h2 := find_matching_eq_spec s wide.timestamp s.plate_buffer
          simp only [FrameSynchronizer.find_matching_frame] at h2
          rw [← h2, hfind']
        refine ⟨(specBestMatch_none _ _ _).mp hspec, ?_⟩
        rcases hcond' with h | h
        · exact Or.inl (List.length_eq_zero.mp h)
        · exact Or.inr h
      · have hcond2 : ¬ (s.plate_buffer = [] ∨ s.sync_tolerance < now - wide.timestamp) := by
          simpa [List.length_eq_zero] using hcond'
        simp [FrameSynchronizer.find_matching_frame, hfind', hcond2] at hp
  · intro ts s0 h0
    induction ts generalizing s0 with
    | nil => simp [FrameSynchronizer.get_synchronized_pair]
    | cons t tsr ih =>
      obtain ⟨hfst, hw⟩ := sync_attempt_wide_empty s0 t h0
      rw [FrameSynchronizer.get_synchronized_pair]
      rcases hsa : s0.sync_attempt t with ⟨res, s2⟩
      rw [hsa] at hfst hw
      simp at hfst
      subst hfst
      exact ih s2 hw

/-! ## Witnesses for C7 and C8 -/

/-- A wide frame captured at t = 10. -/
def wf1 : TimestampedFrame := { frame := 1, timestamp := 10, camera_type := "wide_angle" }

/-- A plate frame 30 ms after the wide frame. -/
def pf1 : TimestampedFrame := { frame := 101, timestamp := 10 + 3/100, camera_type := "plate" }

/-- A plate frame 20 ms before the wide frame — the closer match. -/
def pf2 : TimestampedFrame := { frame := 102, timestamp := 10 - 2/100, camera_type := "plate" }

/-- Synchronizer state with one wide frame and two in-tolerance plate
candidates. -/
def testSync : FrameSynchronizer :=
  { sync_tolerance := 1/10, buffer_size := 30, wide_buffer := [wf1],
    plate_buffer := [pf1, pf2] }

/-- C7 witness: the concrete two-candidate buffer at t = 10. -/
theorem C7_witness :
    ∃ best,
      testSync.find_matching_frame wf1.timestamp testSync.plate_buffer = some best ∧
      (testSync.sync_attempt 10).fst = some
        { wide_frame := wf1.frame, plate_frame := some best.frame,
          timestamp := wf1.timestamp, wide_brightness := wf1.brightness,
          plate_brightness := best.brightness, is_synchronized := true } ∧
      (testSync.sync_attempt 10).snd.wide_buffer = testSync.wide_buffer.dropLast ∧
      (testSync.sync_attempt 10).snd.plate_buffer = testSync.plate_buffer.erase best ∧
      |best.timestamp - wf1.timestamp| ≤ testSync.sync_tolerance ∧
      ∃ pre post, testSync.plate_buffer = pre ++ best :: post ∧
        (∀ g ∈ pre, |g.timestamp - wf1.timestamp| ≤ testSync.sync_tolerance →
           |best.timestamp - wf1.timestamp| < |g.timestamp - wf1.timestamp|) ∧
        (∀ g ∈ post, |g.timestamp - wf1.timestamp| ≤ testSync.sync_tolerance →
           |best.timestamp - wf1.timestamp| ≤ |g.timestamp - wf1.timestamp|) :=
  C7_sync_best_match testSync 10 wf1
    (by
      intro f hf
      simp [testSync] at hf
      subst hf
      norm_num [wf1, BUFFER_MAX_AGE_SECONDS])
    (by
      intro f hf
      simp [testSync] at hf
      rcases hf with hf | hf <;> subst hf <;>
        norm_num [pf1, pf2, BUFFER_MAX_AGE_SECONDS])
    rfl
    ⟨pf1, by simp [testSync], by rw [abs_sub_le_iff]; norm_num [pf1, wf1, testSync]⟩

/-- Synchronizer state whose plate buffer is empty and whose only wide
frame has aged past the tolerance at t = 10.2. -/
def staleSync : FrameSynchronizer :=
  { sync_tolerance := 1/10, buffer_size := 30, wide_buffer := [wf1], plate_buffer := [] }

/-- C8 witness: the degraded path — empty plate buffer, aged wide frame —
emits a `synchronized=false` wide-only pair and consumes only the wide
frame. -/
theorem C8_witness :
    (staleSync.sync_attempt (10 + 2/10)).fst = some
      { wide_frame := wf1.frame, plate_frame := none, timestamp := wf1.timestamp,
        wide_brightness := wf1.brightness, is_synchronized := false } ∧
    (staleSync.sync_attempt (10 + 2/10)).snd.wide_buffer = staleSync.wide_buffer.dropLast ∧
    (staleSync.sync_attempt (10 + 2/10)).snd.plate_buffer = staleSync.plate_buffer :=
  (C8_sync_invariant staleSync (10 + 2/10) wf1
    (by
      intro f hf
      simp [staleSync] at hf
      subst hf
      norm_num [wf1, BUFFER_MAX_AGE_SECONDS])
    (by simp [staleSync])
    rfl).2.1 (by simp [staleSync]) (Or.inl rfl)

end ICapture
